import Mathlib

/-!
Verification of the AIDungeonMaster repository (dungeon_master.py,
persistence.py, prompt_builder.py) against its natural-language
specification.  The game-state layer, XP/level logic and the d20 check
resolution of persistence.py are embedded shallowly: Python ints become
Int, dicts with fixed keys become structures, the random d20 draws become
explicit arguments, and the per-player JSON file becomes an explicit
association list from path to parsed JSON value.
-/

/-- Python str.strip on a list of characters: drop leading and trailing
whitespace (ASCII whitespace suffices for the ability and skill names in
play). -/
def pyStripChars (l : List Char) : List Char :=
  ((l.dropWhile Char.isWhitespace).reverse.dropWhile Char.isWhitespace).reverse

/-- Python str.strip. -/
def pyStrip (s : String) : String := String.mk (pyStripChars s.data)

/-- Python str.title on a list of characters: a letter that follows a
letter is lowercased, any other letter is uppercased; the Bool records
whether the previous character was a letter. -/
def pyTitleChars : Bool → List Char → List Char
  | _, [] => []
  | prevAlpha, c :: rest =>
    (if prevAlpha then c.toLower else c.toUpper) :: pyTitleChars c.isAlpha rest

/-- Python str.title. -/
def pyTitle (s : String) : String := String.mk (pyTitleChars false s.data)

/-- persistence.ability_mod: (score - 10) // 2 with Python floor
division, embedded as Int.fdiv. -/
def ability_mod (score : Int) : Int := (score - 10).fdiv 2

/-- persistence.proficiency_bonus: 2 + (max(1, level) - 1) // 4. -/
def proficiency_bonus (level : Int) : Int := 2 + (max 1 level - 1).fdiv 4

/-- persistence.XP_THRESHOLDS. -/
def XP_THRESHOLDS : List Int :=
  [0, 300, 900, 2700, 6500, 14000, 23000, 34000, 48000, 64000]

/-- persistence.SKILL_MAP: check name to (ability abbreviation, bonus
skill list). -/
def SKILL_MAP : List (String × String × List String) :=
  [ ("Strength", ("STR", [])),
    ("Dexterity", ("DEX", ["Acrobatics", "Stealth"])),
    ("Constitution", ("CON", [])),
    ("Intelligence", ("INT", ["Arcana", "History", "Investigation", "Nature", "Religion"])),
    ("Wisdom", ("WIS", ["Animal Handling", "Insight", "Medicine", "Perception"])),
    ("Charisma", ("CHA", ["Deception", "Intimidation", "Performance", "Persuasion"])),
    ("Athletics", ("STR", ["Athletics"])),
    ("Stealth", ("DEX", ["Stealth"])),
    ("Arcana", ("INT", ["Arcana"])),
    ("History", ("INT", ["History"])),
    ("Insight", ("WIS", ["Insight"])),
    ("Investigation", ("INT", ["Investigation"])),
    ("Medicine", ("WIS", ["Medicine"])),
    ("Nature", ("INT", ["Nature"])),
    ("Religion", ("INT", ["Religion"])),
    ("Animal Handling", ("WIS", ["Animal Handling"])),
    ("Deception", ("CHA", ["Deception"])),
    ("Intimidation", ("CHA", ["Intimidation"])),
    ("Performance", ("CHA", ["Performance"])),
    ("Persuasion", ("CHA", ["Persuasion"])),
    ("Perception", ("WIS", ["Perception"])) ]

/-- The character sub-dictionary of DEFAULT_STATE in persistence.py.
Abilities are the dictionary of scores by abbreviation, looked up with
default 10 as compute_check does. -/
structure Character where
  name : String
  race_class : String
  motivation : String
  abilities : List (String × Int)
  proficiencies : List String
  hp : Int
  max_hp : Int
deriving DecidableEq

/-- One offered choice of the choice buffer, per the spec data model:
label, difficulty class, ability or skill name, optional tags. -/
structure Choice where
  label : String
  dc : Int
  ability : String
  tags : List String
deriving DecidableEq

/-- The choice_buffer entry of DEFAULT_STATE: an opaque scene identifier
plus the ordered list of choices offered. -/
structure ChoiceBuffer where
  scene_id : String
  choices : List Choice
deriving DecidableEq

/-- The per-player game state dictionary (DEFAULT_STATE keys of
persistence.py). -/
structure GameState where
  character : Character
  inventory : List String
  quests : List String
  world_genre : String
  level : Int
  xp : Int
  summary : String
  last_scene : String
  choice_buffer : ChoiceBuffer
  roll_mode : String
  last_rest_ts : Int
deriving DecidableEq

/-- persistence.DEFAULT_STATE as a GameState. -/
def DEFAULT_STATE_G : GameState :=
  { character :=
      { name := ""
        race_class := ""
        motivation := ""
        abilities := [("STR", 10), ("DEX", 10), ("CON", 10), ("INT", 10), ("WIS", 10), ("CHA", 10)]
        proficiencies := []
        hp := 10
        max_hp := 10 }
    inventory := []
    quests := []
    world_genre := ""
    level := 1
    xp := 0
    summary := ""
    last_scene := ""
    choice_buffer := { scene_id := "", choices := [] }
    roll_mode := "normal"
    last_rest_ts := 0 }

/-- Python dict.get with a default, over an association list. -/
def lookupD (l : List (String × Int)) (k : String) (d : Int) : Int :=
  (l.lookup k).getD d

/-- The key normalisation of compute_check:
(ability_or_skill or "Strength").strip().title(). -/
def normalizeKey (s : String) : String :=
  pyTitle (pyStrip (if s = "" then "Strength" else s))

/-- The result dictionary returned by compute_check. -/
structure CheckResult where
  mode : String
  raw : List Int
  d20 : Int
  mod : Int
  prof : Int
  total : Int
  dc : Int
  ability : String
  success : Bool
deriving DecidableEq

/-- persistence.GameStateManager.compute_check, with the two
random.randint(1, 20) draws passed in as d1 and d2 (the second draw is
made in the source in every mode, and ignored in normal mode). -/
def compute_check (st : GameState) (ability_or_skill : String) (dc : Int)
    (d1 d2 : Int) : CheckResult :=
  let char := st.character
  let profs := char.proficiencies
  let mode := st.roll_mode
  let key := normalizeKey ability_or_skill
  let entry := (SKILL_MAP.lookup key).getD ("STR", [])
  let abbr := entry.1
  let skills := entry.2
  let score := lookupD char.abilities abbr 10
  let mod := ability_mod score
  let dr : Int × List Int :=
    if mode = "advantage" then (max d1 d2, [d1, d2])
    else if mode = "disadvantage" then (min d1 d2, [d1, d2])
    else (d1, [d1])
  let d20 := dr.1
  let raw := dr.2
  let prof :=
    if (∃ s ∈ skills, s ∈ profs) ∨ key ∈ profs then proficiency_bonus st.level
    else 0
  let total := d20 + mod + prof
  { mode := mode
    raw := raw
    d20 := d20
    mod := mod
    prof := prof
    total := total
    dc := dc
    ability := ability_or_skill
    success := decide (total ≥ dc) }

/-- The enumerated for-loop of _maybe_level_up: new_level starts at 1 and
becomes i + 1 for each threshold index i with xp >= threshold. -/
def levelScan (xp : Int) : Nat → List Int → Int → Int
  | _, [], acc => acc
  | i, t :: rest, acc => levelScan xp (i + 1) rest (if xp ≥ t then (i : Int) + 1 else acc)

/-- The level _maybe_level_up computes from the XP total. -/
def levelFromXp (xp : Int) : Int := levelScan xp 0 XP_THRESHOLDS 1

/-- persistence.GameStateManager._maybe_level_up: raise the level when
the scan exceeds it, add 3 to max_hp, and add 3 to hp clamped to the new
max_hp. -/
def maybeLevelUp (st : GameState) : GameState :=
  if levelFromXp st.xp > st.level then
    { st with
      level := levelFromXp st.xp
      character :=
        { st.character with
          max_hp := st.character.max_hp + 3
          hp := min (st.character.hp + 3) (st.character.max_hp + 3) } }
  else st

/-- persistence.GameStateManager.award_xp: clamp XP at 0 from below,
then run the level-up rule. -/
def awardXp (st : GameState) (amount : Int) : GameState :=
  maybeLevelUp { st with xp := max 0 (st.xp + amount) }

/-- Python list indexing with a possibly negative index; none models an
IndexError. -/
def pyIndexGet (l : List Int) (i : Int) : Option Int :=
  let j := if i < 0 then (l.length : Int) + i else i
  if j < 0 then none else l.get? j.toNat

/-- persistence.GameStateManager.award_milestone: look up
XP_THRESHOLDS[min(level, len(XP_THRESHOLDS) - 1)], raise XP to it when
below, then run the level-up rule; none models the IndexError that a
negative out-of-range index would raise. -/
def awardMilestone (st : GameState) : Option GameState :=
  match pyIndexGet XP_THRESHOLDS (min st.level ((XP_THRESHOLDS.length : Int) - 1)) with
  | none => none
  | some next_needed =>
    some (maybeLevelUp (if st.xp < next_needed then { st with xp := next_needed } else st))

/-- The state invariant of the XP-mutating operations: non-negative XP,
level at least 1 (the data model declares level an integer at least 1),
and hit points at most max hit points. -/
def GameInv (st : GameState) : Prop :=
  0 ≤ st.xp ∧ 1 ≤ st.level ∧ st.character.hp ≤ st.character.max_hp

instance (st : GameState) : Decidable (GameInv st) := by
  unfold GameInv; infer_instance

/-- A JSON value, the shape of everything json.dumps in persistence.py
serialises. -/
inductive JValue where
  | jnull : JValue
  | jbool : Bool → JValue
  | jint : Int → JValue
  | jstr : String → JValue
  | jarr : List JValue → JValue
  | jobj : List (String × JValue) → JValue

/-- The save directory, seen as a map from file path to the JSON value
the file holds.  The json.dumps encoding to text and the json.loads
decoding back are Python standard-library functions outside this
repository; their round trip on JSON-representable values is their
contract, so a file written by save is modelled as holding the JSON
value itself. -/
def FS := List (String × JValue)

/-- Writing a file: later writes shadow earlier ones. -/
def fsWrite (fs : FS) (p : String) (v : JValue) : FS := (p, v) :: fs

/-- GameStateManager filename: save_dir / (user_id ++ ".json"). -/
def gsmFilename (saveDir : String) (userId : Int) : String :=
  saveDir ++ "/" ++ toString userId ++ ".json"

/-- GameStateManager.save: filename.write_text(json.dumps(state)). -/
def gsmSave (fs : FS) (path : String) (state : JValue) : FS :=
  fsWrite fs path state

/-- persistence.DEFAULT_STATE as a JSON value, for the load fallback. -/
def DEFAULT_STATE_J : JValue :=
  .jobj
    [ ("character", .jobj
        [ ("name", .jstr "")
        , ("race_class", .jstr "")
        , ("motivation", .jstr "")
        , ("abilities", .jobj
            [ ("STR", .jint 10), ("DEX", .jint 10), ("CON", .jint 10)
            , ("INT", .jint 10), ("WIS", .jint 10), ("CHA", .jint 10) ])
        , ("proficiencies", .jarr [])
        , ("hp", .jint 10)
        , ("max_hp", .jint 10) ])
    , ("inventory", .jarr [])
    , ("quests", .jarr [])
    , ("world", .jobj [("genre", .jstr "")])
    , ("level", .jint 1)
    , ("xp", .jint 0)
    , ("summary", .jstr "")
    , ("last_scene", .jstr "")
    , ("choice_buffer", .jobj [("scene_id", .jstr ""), ("choices", .jarr [])])
    , ("roll_mode", .jstr "normal")
    , ("last_rest_ts", .jint 0) ]

/-- GameStateManager.__post_init__ load path: when the file exists its
content is parsed and becomes the state (parsing a file that save wrote
succeeds, its content being a dumped JSON value); a missing file leaves
the default state in place. -/
def gsmLoad (fs : FS) (path : String) : JValue :=
  match List.lookup path fs with
  | some v => v
  | none => DEFAULT_STATE_J

/-- A choice-selection callback event as the spec describes it: the
payload embeds the scene identifier and the selected index. -/
structure ChoiceEvent where
  scene_id : String
  index : Nat
deriving DecidableEq

/-- The outcome of handling a choice-selection event. -/
inductive ChoiceOutcome where
  | accepted : Choice → ChoiceOutcome
  | staleScene : ChoiceOutcome
  | badIndex : ChoiceOutcome
deriving DecidableEq

/-- State and outcome returned by the choice-selection handler. -/
structure HandleResult where
  state : GameState
  outcome : ChoiceOutcome
deriving DecidableEq

/-- Modelled from the spec: the choice-selection handler variant whose
callback payloads embed a scene identifier is not among the sources (the
handle_choice in dungeon_master.py reads only an index from its
payloads, and the choice_buffer that DEFAULT_STATE declares is never
consulted there).  Faithful to the spec words: an event whose embedded
scene id does not match the stored choice buffer id is rejected as stale
with a pick-again outcome and no state mutation; an out-of-range index
is likewise rejected; otherwise the selected choice is resolved and its
consequences applied, here abstracted as the function argument. -/
def handleChoiceEvent (applyChoice : Choice → GameState → GameState)
    (st : GameState) (ev : ChoiceEvent) : HandleResult :=
  if ev.scene_id ≠ st.choice_buffer.scene_id then
    { state := st, outcome := .staleScene }
  else
    match st.choice_buffer.choices.get? ev.index with
    | none => { state := st, outcome := .badIndex }
    | some c => { state := applyChoice c st, outcome := .accepted c }

/-- Follows the claim words, for comparison with compute_check: the full
name of what the claim calls the parent ability of a check name, read
off the skill-map abbreviation of that name. -/
def parentAbilityName (name : String) : String :=
  match ((SKILL_MAP.lookup (normalizeKey name)).getD ("STR", [])).1 with
  | "STR" => "Strength"
  | "DEX" => "Dexterity"
  | "CON" => "Constitution"
  | "INT" => "Intelligence"
  | "WIS" => "Wisdom"
  | "CHA" => "Charisma"
  | _ => ""

/-- Follows the claim words, for comparison with compute_check: the
proficiency contribution the claim asserts, granted exactly when the
proficiency list contains the named skill or its parent ability. -/
def claimProf (st : GameState) (name : String) : Int :=
  if normalizeKey name ∈ st.character.proficiencies ∨
      parentAbilityName name ∈ st.character.proficiencies then
    proficiency_bonus st.level
  else 0

/-- A concrete character proficient in Dexterity, the parent ability of
the Stealth skill. -/
def dexProfState : GameState :=
  { DEFAULT_STATE_G with
    character := { DEFAULT_STATE_G.character with proficiencies := ["Dexterity"] } }

/-- The level-up rule never touches the XP field. -/
theorem maybeLevelUp_xp (st : GameState) : (maybeLevelUp st).xp = st.xp := by
  unfold maybeLevelUp
  split <;> rfl

/-- The proficiency bonus is positive at every level. -/
theorem proficiency_bonus_pos (L : Int) : 0 < proficiency_bonus L := by
  unfold proficiency_bonus
  have h4 : (0 : Int) ≤ 4 := by norm_num
  have h : 0 ≤ (max 1 L - 1).fdiv 4 :=
    Int.fdiv_nonneg (by simp [le_max_iff]) h4
  omega

/-- C6: the ability modifier is the floor of (score - 10) / 2, rounding
toward negative infinity, with modifier 10 = 0, modifier 8 = -1 and
modifier 19 = 4. -/
theorem ability_mod_floor :
    (∀ s : Int, ability_mod s = ⌊((s : ℚ) - 10) / 2⌋) ∧
    ability_mod 10 = 0 ∧ ability_mod 8 = -1 ∧ ability_mod 19 = 4 := by
  refine ⟨fun s => ?_, by decide, by decide, by decide⟩
  unfold ability_mod
  rw [Int.fdiv_eq_ediv _ (by norm_num)]
  have h1 : ((s : ℚ) - 10) = ((s - 10 : Int) : ℚ) := by push_cast; ring
  have h2 : (2 : ℚ) = ((2 : ℕ) : ℚ) := by norm_num
  rw [h1, h2, Rat.floor_intCast_div_natCast]
  norm_num

/-- C7: for levels 1 to 20 the proficiency bonus is the five-tier step
table: +2 at 1-4, +3 at 5-8, +4 at 9-12, +5 at 13-16, +6 at 17-20. -/
theorem proficiency_bonus_table (L : Int) (h1 : 1 ≤ L) (h2 : L ≤ 20) :
    proficiency_bonus L =
      if L ≤ 4 then 2 else if L ≤ 8 then 3 else if L ≤ 12 then 4
      else if L ≤ 16 then 5 else 6 := by
  unfold proficiency_bonus
  rw [max_eq_right h1, Int.fdiv_eq_ediv _ (by norm_num)]
  split_ifs <;> omega

/-- Witness for C7 at level 9. -/
theorem proficiency_bonus_table_witness :
    (1 : Int) ≤ 9 ∧ (9 : Int) ≤ 20 ∧
      proficiency_bonus 9 =
        (if (9 : Int) ≤ 4 then 2 else if (9 : Int) ≤ 8 then 3
         else if (9 : Int) ≤ 12 then 4 else if (9 : Int) ≤ 16 then 5 else 6) :=
  ⟨by norm_num, by norm_num, proficiency_bonus_table 9 (by norm_num) (by norm_num)⟩

/-- C9: saving a game state and reloading it through the load path
reproduces it field for field, no concurrent write having intervened. -/
theorem save_load_roundtrip (fs : FS) (path : String) (st : JValue) :
    gsmLoad (gsmSave fs path st) path = st := by
  simp [gsmSave, gsmLoad, fsWrite, List.lookup]

/-- C1: a choice-selection event whose embedded scene id differs from
the stored choice buffer id is rejected as stale, and XP, hit points and
inventory are left unchanged. -/
theorem stale_choice_rejected (applyChoice : Choice → GameState → GameState)
    (st : GameState) (ev : ChoiceEvent)
    (h : ev.scene_id ≠ st.choice_buffer.scene_id) :
    (handleChoiceEvent applyChoice st ev).outcome = .staleScene ∧
    (handleChoiceEvent applyChoice st ev).state.xp = st.xp ∧
    (handleChoiceEvent applyChoice st ev).state.character.hp = st.character.hp ∧
    (handleChoiceEvent applyChoice st ev).state.inventory = st.inventory := by
  simp [handleChoiceEvent, h]

/-- Witness for C1: a mismatched scene id, with a consequence function
that would add XP were the event accepted. -/
theorem stale_choice_rejected_witness :
    ("s2" : String) ≠ DEFAULT_STATE_G.choice_buffer.scene_id ∧
    ((handleChoiceEvent (fun _ s => { s with xp := s.xp + 50 }) DEFAULT_STATE_G ⟨"s2", 0⟩).outcome = .staleScene ∧
     (handleChoiceEvent (fun _ s => { s with xp := s.xp + 50 }) DEFAULT_STATE_G ⟨"s2", 0⟩).state.xp = DEFAULT_STATE_G.xp ∧
     (handleChoiceEvent (fun _ s => { s with xp := s.xp + 50 }) DEFAULT_STATE_G ⟨"s2", 0⟩).state.character.hp = DEFAULT_STATE_G.character.hp ∧
     (handleChoiceEvent (fun _ s => { s with xp := s.xp + 50 }) DEFAULT_STATE_G ⟨"s2", 0⟩).state.inventory = DEFAULT_STATE_G.inventory) :=
  ⟨by decide,
   stale_choice_rejected (fun _ s => { s with xp := s.xp + 50 }) DEFAULT_STATE_G ⟨"s2", 0⟩ (by decide)⟩

/-- C2: under advantage the die result is the max of the two draws,
under disadvantage the min, and under normal it is the single first
draw. -/
theorem compute_check_roll_modes (st : GameState) (name : String) (dc d1 d2 : Int) :
    (st.roll_mode = "advantage" →
      (compute_check st name dc d1 d2).d20 = max d1 d2 ∧
      (compute_check st name dc d1 d2).raw = [d1, d2]) ∧
    (st.roll_mode = "disadvantage" →
      (compute_check st name dc d1 d2).d20 = min d1 d2 ∧
      (compute_check st name dc d1 d2).raw = [d1, d2]) ∧
    (st.roll_mode = "normal" →
      (compute_check st name dc d1 d2).d20 = d1 ∧
      (compute_check st name dc d1 d2).raw = [d1]) := by
  refine ⟨fun h => ?_, fun h => ?_, fun h => ?_⟩ <;> simp [compute_check, h]

/-- Witness for C2 in advantage mode. -/
theorem compute_check_roll_modes_witness :
    ({ DEFAULT_STATE_G with roll_mode := "advantage" } : GameState).roll_mode = "advantage" ∧
    ((compute_check { DEFAULT_STATE_G with roll_mode := "advantage" } "Stealth" 10 4 17).d20 = max 4 17 ∧
     (compute_check { DEFAULT_STATE_G with roll_mode := "advantage" } "Stealth" 10 4 17).raw = [4, 17]) :=
  ⟨rfl, (compute_check_roll_modes { DEFAULT_STATE_G with roll_mode := "advantage" } "Stealth" 10 4 17).1 rfl⟩

/-- C3 counterexample: a character proficient in Dexterity, the parent
ability of Stealth, still gets no proficiency bonus on a Stealth check,
while the claim grants the level-1 bonus of 2 there. -/
theorem parent_ability_prof_cex :
    (compute_check dexProfState "Stealth" 10 5 5).prof = 0 ∧
    claimProf dexProfState "Stealth" = 2 := by decide

/-- C3 amended: the proficiency contribution is the proficiency bonus or
zero, and it is nonzero exactly when the proficiency list contains one
of the bonus skills the skill map associates with the normalised check
name, or the normalised check name itself: proficiency in a parent
ability does not by itself grant the bonus on a skill check. -/
theorem compute_check_prof_iff (st : GameState) (name : String) (dc d1 d2 : Int) :
    ((compute_check st name dc d1 d2).prof = proficiency_bonus st.level ∨
     (compute_check st name dc d1 d2).prof = 0) ∧
    ((compute_check st name dc d1 d2).prof ≠ 0 ↔
      (∃ s ∈ ((SKILL_MAP.lookup (normalizeKey name)).getD ("STR", [])).2,
        s ∈ st.character.proficiencies) ∨
      normalizeKey name ∈ st.character.proficiencies) := by
  have hpos := proficiency_bonus_pos st.level
  by_cases hc :
      (∃ s ∈ ((SKILL_MAP.lookup (normalizeKey name)).getD ("STR", [])).2,
        s ∈ st.character.proficiencies) ∨
      normalizeKey name ∈ st.character.proficiencies
  · have h1 : (compute_check st name dc d1 d2).prof = proficiency_bonus st.level := by
      simp [compute_check, hc]
    refine ⟨Or.inl h1, ?_⟩
    rw [h1]
    simpa [hc] using hpos.ne'
  · have h1 : (compute_check st name dc d1 d2).prof = 0 := by
      simp [compute_check, hc]
    refine ⟨Or.inr h1, ?_⟩
    rw [h1]
    simp [hc]

/-- C8: a check name that is empty or whose normalised form the skill
map does not know resolves to Strength with an empty bonus-skill list,
and the check still returns a complete result. -/
theorem compute_check_unknown_name_defaults (st : GameState) (name : String)
    (dc d1 d2 : Int)
    (h : name = "" ∨ SKILL_MAP.lookup (normalizeKey name) = none) :
    (SKILL_MAP.lookup (normalizeKey name)).getD ("STR", []) = ("STR", []) ∧
    (compute_check st name dc d1 d2).mod =
      ability_mod (lookupD st.character.abilities "STR" 10) ∧
    (compute_check st name dc d1 d2).prof =
      (if normalizeKey name ∈ st.character.proficiencies then proficiency_bonus st.level
       else 0) ∧
    (compute_check st name dc d1 d2).total =
      (compute_check st name dc d1 d2).d20 + (compute_check st name dc d1 d2).mod +
        (compute_check st name dc d1 d2).prof ∧
    (compute_check st name dc d1 d2).dc = dc ∧
    (compute_check st name dc d1 d2).ability = name ∧
    ((compute_check st name dc d1 d2).success = true ↔
      dc ≤ (compute_check st name dc d1 d2).total) := by
  have hentry : (SKILL_MAP.lookup (normalizeKey name)).getD ("STR", []) = ("STR", []) := by
    rcases h with h | h
    · subst h; decide
    · rw [h]; rfl
  refine ⟨hentry, ?_, ?_, ?_, rfl, rfl, ?_⟩
  · simp [compute_check, hentry]
  · simp [compute_check, hentry]
  · simp [compute_check]
  · simp [compute_check, ge_iff_le]

/-- Witness for C8 with the unrecognised name Fireball. -/
theorem compute_check_unknown_name_defaults_witness :
    (("Fireball" : String) = "" ∨ SKILL_MAP.lookup (normalizeKey "Fireball") = none) ∧
    (compute_check DEFAULT_STATE_G "Fireball" 12 7 3).mod =
      ability_mod (lookupD DEFAULT_STATE_G.character.abilities "STR" 10) :=
  ⟨Or.inr (by decide),
   (compute_check_unknown_name_defaults DEFAULT_STATE_G "Fireball" 12 7 3
      (Or.inr (by decide))).2.1⟩

/-- C4 counterexample: from the default state, gaining one level raises
max hit points by 3, but gaining two levels in one award also raises
them by only 3, so no per-level constant makes the increase proportional
to the number of levels gained. -/
theorem level_up_hp_not_proportional :
    (awardXp DEFAULT_STATE_G 300).level - DEFAULT_STATE_G.level = 1 ∧
    (awardXp DEFAULT_STATE_G 300).character.max_hp -
      DEFAULT_STATE_G.character.max_hp = 3 ∧
    (awardXp DEFAULT_STATE_G 900).level - DEFAULT_STATE_G.level = 2 ∧
    (awardXp DEFAULT_STATE_G 900).character.max_hp -
      DEFAULT_STATE_G.character.max_hp = 3 ∧
    ¬ ∃ c : Int, c * 1 = 3 ∧ c * 2 = 3 := by
  refine ⟨by decide, by decide, by decide, by decide, ?_⟩
  rintro ⟨c, h1, h2⟩
  omega

/-- C4 amended: the level-up logic raises the level to the highest
threshold index reached (never lowering it), and on any level-up event,
however many levels are gained at once, it adds a flat 3 to max hit
points and 3 to hit points clamped at the new maximum. -/
theorem maybe_level_up_flat_bump (st : GameState) :
    levelFromXp st.xp =
      (if 64000 ≤ st.xp then 10 else if 48000 ≤ st.xp then 9 else
       if 34000 ≤ st.xp then 8 else if 23000 ≤ st.xp then 7 else
       if 14000 ≤ st.xp then 6 else if 6500 ≤ st.xp then 5 else
       if 2700 ≤ st.xp then 4 else if 900 ≤ st.xp then 3 else
       if 300 ≤ st.xp then 2 else 1) ∧
    (maybeLevelUp st).level = max st.level (levelFromXp st.xp) ∧
    (st.level < levelFromXp st.xp →
      (maybeLevelUp st).character.max_hp = st.character.max_hp + 3 ∧
      (maybeLevelUp st).character.hp =
        min (st.character.hp + 3) (st.character.max_hp + 3)) ∧
    (levelFromXp st.xp ≤ st.level → maybeLevelUp st = st) := by
  refine ⟨?_, ?_, ?_, ?_⟩
  · simp [levelFromXp, levelScan, XP_THRESHOLDS]
  · by_cases hlt : levelFromXp st.xp > st.level
    · simp [maybeLevelUp, hlt]
      omega
    · simp [maybeLevelUp, hlt]
      omega
  · intro hlt
    simp [maybeLevelUp, hlt]
  · intro hle
    have hnot : ¬ levelFromXp st.xp > st.level := not_lt.mpr hle
    simp [maybeLevelUp, hnot]

/-- Witness for C4 amended at the default state given 900 XP. -/
theorem maybe_level_up_flat_bump_witness :
    ({ DEFAULT_STATE_G with xp := 900 } : GameState).level <
      levelFromXp ({ DEFAULT_STATE_G with xp := 900 } : GameState).xp ∧
    ((maybeLevelUp { DEFAULT_STATE_G with xp := 900 }).character.max_hp =
      ({ DEFAULT_STATE_G with xp := 900 } : GameState).character.max_hp + 3 ∧
     (maybeLevelUp { DEFAULT_STATE_G with xp := 900 }).character.hp =
      min (({ DEFAULT_STATE_G with xp := 900 } : GameState).character.hp + 3)
        (({ DEFAULT_STATE_G with xp := 900 } : GameState).character.max_hp + 3)) :=
  ⟨by decide,
   (maybe_level_up_flat_bump { DEFAULT_STATE_G with xp := 900 }).2.2.1 (by decide)⟩

/-- C5: when the threshold table has an entry at the index equal to the
current level, which is the XP threshold of the next level, the
milestone award sets XP to that entry whenever XP is below it, runs the
level-up rule, and in every case leaves XP at or above the entry. -/
theorem award_milestone_raises_to_next_threshold (st : GameState) (t : Int)
    (h0 : 0 ≤ st.level) (ht : XP_THRESHOLDS.get? st.level.toNat = some t) :
    awardMilestone st =
      some (maybeLevelUp (if st.xp < t then { st with xp := t } else st)) ∧
    ∀ st', awardMilestone st = some st' → t ≤ st'.xp := by
  have hlen : XP_THRESHOLDS.length = 10 := rfl
  have hlt : st.level.toNat < 10 := by
    obtain ⟨hl, _⟩ := List.get?_eq_some.mp ht
    rw [hlen] at hl
    exact hl
  have h9 : ((XP_THRESHOLDS.length : Int) - 1) = 9 := by decide
  have hmin : min st.level ((XP_THRESHOLDS.length : Int) - 1) = st.level := by
    rw [h9]
    omega
  have hpy : pyIndexGet XP_THRESHOLDS
      (min st.level ((XP_THRESHOLDS.length : Int) - 1)) = some t := by
    rw [hmin]
    unfold pyIndexGet
    have hnn : ¬ st.level < 0 := by omega
    simp only [hnn, if_false]
    exact ht
  constructor
  · unfold awardMilestone
    rw [hpy]
  · intro st' hst'
    unfold awardMilestone at hst'
    rw [hpy] at hst'
    obtain rfl := Option.some.inj hst'
    rw [maybeLevelUp_xp]
    by_cases hxp : st.xp < t
    · simp [hxp]
    · simp [hxp]
      omega

/-- Witness for C5 at the default state (level 1, next threshold 300). -/
theorem award_milestone_raises_witness :
    (0 : Int) ≤ DEFAULT_STATE_G.level ∧
    XP_THRESHOLDS.get? DEFAULT_STATE_G.level.toNat = some 300 ∧
    awardMilestone DEFAULT_STATE_G =
      some (maybeLevelUp
        (if DEFAULT_STATE_G.xp < 300 then { DEFAULT_STATE_G with xp := 300 }
         else DEFAULT_STATE_G)) :=
  ⟨by decide, by decide,
   (award_milestone_raises_to_next_threshold DEFAULT_STATE_G 300 (by decide) (by decide)).1⟩

/-- The level-up rule preserves the state invariant and never lowers the
level. -/
theorem maybeLevelUp_preserves (st : GameState) (h : GameInv st) :
    GameInv (maybeLevelUp st) ∧ st.level ≤ (maybeLevelUp st).level := by
  obtain ⟨hxp, hlvl, hhp⟩ := h
  by_cases hlt : levelFromXp st.xp > st.level
  · refine ⟨⟨?_, ?_, ?_⟩, ?_⟩ <;> simp [maybeLevelUp, hlt] <;> omega
  · have hres : maybeLevelUp st = st := by simp [maybeLevelUp, hlt]
    rw [hres]
    exact ⟨⟨hxp, hlvl, hhp⟩, le_refl _⟩

/-- C10: the XP-mutating operations preserve non-negative XP, a level of
at least 1 that never decreases, and hit points at most max hit points,
from any state satisfying the invariant. -/
theorem xp_ops_preserve_invariant (st : GameState) (h : GameInv st) :
    (∀ amount : Int,
      GameInv (awardXp st amount) ∧ st.level ≤ (awardXp st amount).level) ∧
    (GameInv (maybeLevelUp st) ∧ st.level ≤ (maybeLevelUp st).level) ∧
    (∃ st', awardMilestone st = some st' ∧ GameInv st' ∧ st.level ≤ st'.level) := by
  obtain ⟨hxp, hlvl, hhp⟩ := h
  refine ⟨?_, maybeLevelUp_preserves st ⟨hxp, hlvl, hhp⟩, ?_⟩
  · intro amount
    have hinv2 : GameInv { st with xp := max 0 (st.xp + amount) } :=
      ⟨le_max_left _ _, hlvl, hhp⟩
    exact maybeLevelUp_preserves _ hinv2
  · have hlen : XP_THRESHOLDS.length = 10 := rfl
    have h9 : ((XP_THRESHOLDS.length : Int) - 1) = 9 := by decide
    have hidx : (min st.level 9).toNat < XP_THRESHOLDS.length := by
      rw [hlen]
      omega
    obtain ⟨t, ht⟩ : ∃ t, XP_THRESHOLDS.get? (min st.level 9).toNat = some t :=
      ⟨XP_THRESHOLDS.get ⟨_, hidx⟩, List.get?_eq_get hidx⟩
    have hpy : pyIndexGet XP_THRESHOLDS
        (min st.level ((XP_THRESHOLDS.length : Int) - 1)) = some t := by
      rw [h9]
      unfold pyIndexGet
      have hnn : ¬ min st.level 9 < 0 := by omega
      simp only [hnn, if_false]
      exact ht
    refine ⟨maybeLevelUp (if st.xp < t then { st with xp := t } else st), ?_, ?_, ?_⟩
    · unfold awardMilestone
      rw [hpy]
    · by_cases hx : st.xp < t
      · rw [if_pos hx]
        have h0t : (0 : Int) ≤ t := by omega
        have hinvm : GameInv { st with xp := t } := ⟨h0t, hlvl, hhp⟩
        exact (maybeLevelUp_preserves _ hinvm).1
      · rw [if_neg hx]
        exact (maybeLevelUp_preserves _ ⟨hxp, hlvl, hhp⟩).1
    · by_cases hx : st.xp < t
      · rw [if_pos hx]
        have h0t : (0 : Int) ≤ t := by omega
        have hinvm : GameInv { st with xp := t } := ⟨h0t, hlvl, hhp⟩
        exact (maybeLevelUp_preserves _ hinvm).2
      · rw [if_neg hx]
        exact (maybeLevelUp_preserves _ ⟨hxp, hlvl, hhp⟩).2

/-- Witness for C10 at the default state with a 5 XP award. -/
theorem xp_ops_preserve_invariant_witness :
    GameInv DEFAULT_STATE_G ∧
    (GameInv (awardXp DEFAULT_STATE_G 5) ∧
      DEFAULT_STATE_G.level ≤ (awardXp DEFAULT_STATE_G 5).level) :=
  ⟨by decide, (xp_ops_preserve_invariant DEFAULT_STATE_G (by decide)).1 5⟩
